import Mathlib

/-!
# Verification of the `rocket-response` response-union crate

The crate (src/lib.rs) declares three Rust enums — `RocketResponse`,
`RocketResponseGeneric<T>`, `RocketResponseGeneric2<T, U>` — each a tagged
union over a fixed catalog of Rocket response kinds, with `#[derive(Responder)]`
generating a branch-per-variant dispatch to the wrapped response type.

This file embeds the crate at two levels:

* a type-level model: the variant catalog of each enum shape (with the crate
  feature flags that gate some variants) and the Rust payload type of each
  variant, as a small AST over the two possible type parameters `T` and `U`;
* a value-level model: one Lean inductive per enum shape, holding the payload
  data of each variant, together with a rendering function.  The rendering of
  each wrapped response kind is owned by the Rocket framework, not by this
  crate, so those renderers are modelled from the spec (section 4.1 contract
  catalog); the union render is the branch-per-variant forwarding that the
  `Responder` derive generates.
-/

/-- The crate build features that gate variants: `json`, `msgpack`,
`templates-tera`, `templates-handlebars` (src/lib.rs lines 122-143). -/
structure Features where
  json : Bool
  msgpack : Bool
  templatesTera : Bool
  templatesHandlebars : Bool
deriving DecidableEq, Repr

/-- The variant names occurring in the three enum declarations of src/lib.rs.
Names follow the Rust source (including the `NamedFiled` spelling). -/
inductive VariantName
  | accepted
  | badRequest
  | conflict
  | created
  | css
  | file
  | flash
  | forbidden
  | html
  | javaScript
  | json
  | msgPack
  | namedFiled
  | notFound
  | noContent
  | plain
  | redirect
  | serdeJson
  | serdeMsgPack
  | serdeValue
  | staticSlice
  | staticStr
  | string
  | status
  | template
  | tokioFile
  | unauthorized
  | vec
  | xml
deriving DecidableEq, Repr, Fintype

/-- Rust payload types of the enum variants, as an AST: `param 0` is the type
parameter `T`, `param 1` is `U`; the remaining constructors are the concrete
Rust types appearing in the variant declarations, with the wrapper types
(`Accepted<_>`, `RawCss<_>`, `Flash<_>`, ...) taking their argument. -/
inductive RustTy
  | param (i : Nat)
  | staticStrTy
  | fileTy
  | namedFileTy
  | redirectTy
  | statusTy
  | staticSliceU8
  | stringTy
  | vecU8
  | tokioFileTy
  | templateTy
  | jsonValueTy
  | noContentTy
  | accepted (a : RustTy)
  | badRequest (a : RustTy)
  | conflict (a : RustTy)
  | created (a : RustTy)
  | rawCss (a : RustTy)
  | flash (a : RustTy)
  | forbidden (a : RustTy)
  | rawHtml (a : RustTy)
  | rawJavaScript (a : RustTy)
  | rawJson (a : RustTy)
  | rawMsgPack (a : RustTy)
  | notFound (a : RustTy)
  | rawText (a : RustTy)
  | serdeJson (a : RustTy)
  | serdeMsgPack (a : RustTy)
  | rawXml (a : RustTy)
  | unauthorized (a : RustTy)
deriving DecidableEq, Repr

/-- Whether a Rust type expression mentions type parameter `i`
(0 for `T`, 1 for `U`). -/
def RustTy.mentionsParam (i : Nat) : RustTy → Bool
  | .param j => i == j
  | .accepted a | .badRequest a | .conflict a | .created a | .rawCss a
  | .flash a | .forbidden a | .rawHtml a | .rawJavaScript a | .rawJson a
  | .rawMsgPack a | .notFound a | .rawText a | .serdeJson a
  | .serdeMsgPack a | .rawXml a | .unauthorized a => a.mentionsParam i
  | _ => false

/-- The variant catalog of `RocketResponse` (src/lib.rs lines 86-153), in
source order, with the `#[cfg(feature = ...)]` gating of the serde and
template variants. -/
def RocketResponse.variants (f : Features) : List VariantName :=
  [.accepted, .badRequest, .conflict, .created, .css, .file, .flash,
   .forbidden, .html, .javaScript, .json, .msgPack, .namedFiled, .notFound,
   .noContent, .plain, .redirect]
  ++ (if f.json then [.serdeJson] else [])
  ++ (if f.msgpack then [.serdeMsgPack] else [])
  ++ (if f.json then [.serdeValue] else [])
  ++ [.staticSlice, .staticStr, .string, .status]
  ++ (if f.templatesTera || f.templatesHandlebars then [.template] else [])
  ++ [.tokioFile, .unauthorized, .vec, .xml]

/-- The variant catalog of `RocketResponseGeneric<T>` (src/lib.rs lines
177-247), in source order, with the feature gating. -/
def RocketResponseGeneric.variants (f : Features) : List VariantName :=
  [.accepted, .badRequest, .conflict, .created, .css, .file, .flash,
   .forbidden, .html, .javaScript, .json, .msgPack, .namedFiled, .notFound,
   .noContent, .plain, .redirect]
  ++ (if f.json then [.serdeJson] else [])
  ++ (if f.msgpack then [.serdeMsgPack] else [])
  ++ (if f.json then [.serdeValue] else [])
  ++ [.staticSlice, .staticStr, .string, .status]
  ++ (if f.templatesTera || f.templatesHandlebars then [.template] else [])
  ++ [.tokioFile, .unauthorized, .vec, .xml]

/-- The variant catalog of `RocketResponseGeneric2<T, U>` (src/lib.rs lines
276-347), in source order, with the feature gating. -/
def RocketResponseGeneric2.variants (f : Features) : List VariantName :=
  [.accepted, .badRequest, .conflict, .created, .css, .file, .flash,
   .forbidden, .html, .javaScript, .json, .msgPack, .namedFiled, .notFound,
   .noContent, .plain, .redirect]
  ++ (if f.json then [.serdeJson] else [])
  ++ (if f.msgpack then [.serdeMsgPack] else [])
  ++ (if f.json then [.serdeValue] else [])
  ++ [.staticSlice, .staticStr, .string, .status]
  ++ (if f.templatesTera || f.templatesHandlebars then [.template] else [])
  ++ [.tokioFile, .unauthorized, .vec, .xml]

/-- Payload type of each `RocketResponse` variant (src/lib.rs lines 86-153):
every wrapper takes `&'static str`, the structurally fixed variants keep
their concrete types. -/
def RocketResponse.payloadTy : VariantName → RustTy
  | .accepted => .accepted .staticStrTy
  | .badRequest => .badRequest .staticStrTy
  | .conflict => .conflict .staticStrTy
  | .created => .created .staticStrTy
  | .css => .rawCss .staticStrTy
  | .file => .fileTy
  | .flash => .flash .staticStrTy
  | .forbidden => .forbidden .staticStrTy
  | .html => .rawHtml .staticStrTy
  | .javaScript => .rawJavaScript .staticStrTy
  | .json => .rawJson .staticStrTy
  | .msgPack => .rawMsgPack .staticStrTy
  | .namedFiled => .namedFileTy
  | .notFound => .notFound .staticStrTy
  | .noContent => .noContentTy
  | .plain => .rawText .staticStrTy
  | .redirect => .redirectTy
  | .serdeJson => .serdeJson .staticStrTy
  | .serdeMsgPack => .serdeMsgPack .staticStrTy
  | .serdeValue => .jsonValueTy
  | .staticSlice => .staticSliceU8
  | .staticStr => .staticStrTy
  | .string => .stringTy
  | .status => .statusTy
  | .template => .templateTy
  | .tokioFile => .tokioFileTy
  | .unauthorized => .unauthorized .staticStrTy
  | .vec => .vecU8
  | .xml => .rawXml .staticStrTy

/-- Payload type of each `RocketResponseGeneric<T>` variant (src/lib.rs lines
177-247): the wrappers take the parameter `T` (`param 0`); `File`,
`NamedFiled`, `NoContent`, `Redirect`, `SerdeValue`, `StaticSlice`,
`StaticStr`, `String`, `Status`, `Template`, `TokioFile` and `Vec` keep
concrete types. -/
def RocketResponseGeneric.payloadTy : VariantName → RustTy
  | .accepted => .accepted (.param 0)
  | .badRequest => .badRequest (.param 0)
  | .conflict => .conflict (.param 0)
  | .created => .created (.param 0)
  | .css => .rawCss (.param 0)
  | .file => .fileTy
  | .flash => .flash (.param 0)
  | .forbidden => .forbidden (.param 0)
  | .html => .rawHtml (.param 0)
  | .javaScript => .rawJavaScript (.param 0)
  | .json => .rawJson (.param 0)
  | .msgPack => .rawMsgPack (.param 0)
  | .namedFiled => .namedFileTy
  | .notFound => .notFound (.param 0)
  | .noContent => .noContentTy
  | .plain => .rawText (.param 0)
  | .redirect => .redirectTy
  | .serdeJson => .serdeJson (.param 0)
  | .serdeMsgPack => .serdeMsgPack (.param 0)
  | .serdeValue => .jsonValueTy
  | .staticSlice => .staticSliceU8
  | .staticStr => .staticStrTy
  | .string => .stringTy
  | .status => .statusTy
  | .template => .templateTy
  | .tokioFile => .tokioFileTy
  | .unauthorized => .unauthorized (.param 0)
  | .vec => .vecU8
  | .xml => .rawXml (.param 0)

/-- Payload type of each `RocketResponseGeneric2<T, U>` variant (src/lib.rs
lines 276-347): identical to `RocketResponseGeneric` except that `Flash`
takes the second parameter `U` (`param 1`). -/
def RocketResponseGeneric2.payloadTy : VariantName → RustTy
  | .accepted => .accepted (.param 0)
  | .badRequest => .badRequest (.param 0)
  | .conflict => .conflict (.param 0)
  | .created => .created (.param 0)
  | .css => .rawCss (.param 0)
  | .file => .fileTy
  | .flash => .flash (.param 1)
  | .forbidden => .forbidden (.param 0)
  | .html => .rawHtml (.param 0)
  | .javaScript => .rawJavaScript (.param 0)
  | .json => .rawJson (.param 0)
  | .msgPack => .rawMsgPack (.param 0)
  | .namedFiled => .namedFileTy
  | .notFound => .notFound (.param 0)
  | .noContent => .noContentTy
  | .plain => .rawText (.param 0)
  | .redirect => .redirectTy
  | .serdeJson => .serdeJson (.param 0)
  | .serdeMsgPack => .serdeMsgPack (.param 0)
  | .serdeValue => .jsonValueTy
  | .staticSlice => .staticSliceU8
  | .staticStr => .staticStrTy
  | .string => .stringTy
  | .status => .statusTy
  | .template => .templateTy
  | .tokioFile => .tokioFileTy
  | .unauthorized => .unauthorized (.param 0)
  | .vec => .vecU8
  | .xml => .rawXml (.param 0)

/-- Trait bounds appearing in the enum declarations. -/
inductive TraitBound
  | serialize
deriving DecidableEq, Repr

/-- The `where T: Serialize` bound on `RocketResponseGeneric<T>`
(src/lib.rs lines 177-180).  It is a bound on the whole enum, hence required
for every variant; `requiredBoundsT` records the bounds each variant imposes
on `T` through the enum declaration. -/
def RocketResponseGeneric.boundsT : List TraitBound := [.serialize]

/-- Per-variant view of the enum-level bound on `T` of
`RocketResponseGeneric<T>`: the single `where`-clause applies to all
variants alike. -/
def RocketResponseGeneric.requiredBoundsT : VariantName → List TraitBound :=
  fun _ => RocketResponseGeneric.boundsT

/-- The `where T: Serialize` bound on `RocketResponseGeneric2<T, U>`
(src/lib.rs lines 276-279). -/
def RocketResponseGeneric2.boundsT : List TraitBound := [.serialize]

/-- Per-variant view of the enum-level bound on `T` of
`RocketResponseGeneric2<T, U>`. -/
def RocketResponseGeneric2.requiredBoundsT : VariantName → List TraitBound :=
  fun _ => RocketResponseGeneric2.boundsT

/-- The bounds on the second parameter `U` of `RocketResponseGeneric2<T, U>`:
the `where`-clause of the declaration (src/lib.rs lines 276-279) constrains
only `T`, so `U` carries no bound. -/
def RocketResponseGeneric2.boundsU : List TraitBound := []

/-- The inner type wrapped by the `Flash` variant of a shape, read off the
shape's payload-type table. -/
def flashInner (payload : VariantName → RustTy) : Option RustTy :=
  match payload .flash with
  | .flash a => some a
  | _ => none

/-! ## Value-level model

One Lean inductive per enum shape.  The feature-gated variants are included
(i.e. the model is the crate compiled with all features on); the catalogs
above record the gating.  Payloads of the externally defined Rocket types are
modelled by small structures holding exactly the data their renderers use. -/

/-- A protocol-level response: status code, optional content type, optional
body (bytes modelled as a string), extra headers in order. -/
structure HttpResponse where
  status : Nat
  contentType : Option String
  body : Option String
  headers : List (String × String)
deriving DecidableEq, Repr

/-- An already-open file handle (`std::fs::File` / `rocket::tokio::fs::File`):
the model keeps the readable contents, `none` when reading fails. -/
structure FileH where
  contents : Option String
deriving DecidableEq, Repr

/-- A `rocket::fs::NamedFile`: a file opened by path, with the content type
inferred from the path extension. -/
structure NamedFileH where
  path : String
  contents : Option String
  inferredContentType : Option String
deriving DecidableEq, Repr

/-- A `rocket::response::Redirect`: a 3xx status and the `Location` target. -/
structure RedirectV where
  status : Nat
  location : String
deriving DecidableEq, Repr

/-- `Redirect::to(uri)`: a See Other (303) redirect. -/
def RedirectV.to (uri : String) : RedirectV := ⟨303, uri⟩

/-- A `rocket::response::Flash<R>`: an inner responder plus a one-shot
message of a given kind, delivered via a transient cookie. -/
structure FlashV (R : Type) where
  inner : R
  kind : String
  message : String
deriving DecidableEq, Repr

/-- `Flash::error(inner, message)`: a flash of kind `error`. -/
def FlashV.error {R : Type} (r : R) (msg : String) : FlashV R :=
  ⟨r, "error", msg⟩

/-- A `rocket_dyn_templates::Template`: the model keeps the outcome of
rendering the template, `none` when rendering fails. -/
structure TemplateV where
  rendered : Option String
deriving DecidableEq, Repr

/-- Value-level `RocketResponse` (src/lib.rs lines 86-153): `&'static str`
payloads are `String`; the status wrappers hold the optional text body their
Rocket counterparts carry. -/
inductive RocketResponse
  | accepted (p : Option String)
  | badRequest (p : Option String)
  | conflict (p : Option String)
  | created (p : Option String)
  | css (p : String)
  | file (p : FileH)
  | flash (p : FlashV String)
  | forbidden (p : Option String)
  | html (p : String)
  | javaScript (p : String)
  | json (p : String)
  | msgPack (p : String)
  | namedFiled (p : NamedFileH)
  | notFound (p : Option String)
  | noContent
  | plain (p : String)
  | redirect (p : RedirectV)
  | serdeJson (p : String)
  | serdeMsgPack (p : String)
  | serdeValue (p : String)
  | staticSlice (p : String)
  | staticStr (p : String)
  | string (p : String)
  | status (p : Nat)
  | template (p : TemplateV)
  | tokioFile (p : FileH)
  | unauthorized (p : Option String)
  | vec (p : String)
  | xml (p : String)

/-- Value-level `RocketResponseGeneric<T>` (src/lib.rs lines 177-247). -/
inductive RocketResponseGeneric (T : Type)
  | accepted (p : Option T)
  | badRequest (p : Option T)
  | conflict (p : Option T)
  | created (p : Option T)
  | css (p : T)
  | file (p : FileH)
  | flash (p : FlashV T)
  | forbidden (p : Option T)
  | html (p : T)
  | javaScript (p : T)
  | json (p : T)
  | msgPack (p : T)
  | namedFiled (p : NamedFileH)
  | notFound (p : Option T)
  | noContent
  | plain (p : T)
  | redirect (p : RedirectV)
  | serdeJson (p : T)
  | serdeMsgPack (p : T)
  | serdeValue (p : String)
  | staticSlice (p : String)
  | staticStr (p : String)
  | string (p : String)
  | status (p : Nat)
  | template (p : TemplateV)
  | tokioFile (p : FileH)
  | unauthorized (p : Option T)
  | vec (p : String)
  | xml (p : T)

/-- Value-level `RocketResponseGeneric2<T, U>` (src/lib.rs lines 276-347):
as `RocketResponseGeneric` but `Flash` wraps `U`. -/
inductive RocketResponseGeneric2 (T U : Type)
  | accepted (p : Option T)
  | badRequest (p : Option T)
  | conflict (p : Option T)
  | created (p : Option T)
  | css (p : T)
  | file (p : FileH)
  | flash (p : FlashV U)
  | forbidden (p : Option T)
  | html (p : T)
  | javaScript (p : T)
  | json (p : T)
  | msgPack (p : T)
  | namedFiled (p : NamedFileH)
  | notFound (p : Option T)
  | noContent
  | plain (p : T)
  | redirect (p : RedirectV)
  | serdeJson (p : T)
  | serdeMsgPack (p : T)
  | serdeValue (p : String)
  | staticSlice (p : String)
  | staticStr (p : String)
  | string (p : String)
  | status (p : Nat)
  | template (p : TemplateV)
  | tokioFile (p : FileH)
  | unauthorized (p : Option T)
  | vec (p : String)
  | xml (p : T)

/-! ## Renderers of the wrapped response kinds

These are owned by the Rocket framework, not by the crate, so they are
modelled from the spec (section 4.1): each wrapped response kind has its own
rendering contract, and the union forwards to it without change. -/

/-- Modelled from the spec: the plain-text renderer (`&str` / `String` /
`RawText`) sets content-type `text/plain` and body = the string, status 200
(the "default fallback text" contract). -/
def respondText (s : String) : HttpResponse :=
  ⟨200, some "text/plain", some s, []⟩

/-- Override the status of a response (what a status wrapper does to its
inner responder's output). -/
def setStatus (code : Nat) (r : HttpResponse) : HttpResponse :=
  { r with status := code }

/-- Override the content type of a response (what a content wrapper does to
its inner responder's output). -/
def setContentType (ct : String) (r : HttpResponse) : HttpResponse :=
  { r with contentType := some ct }

/-- Modelled from the spec: a status wrapper (`Accepted`, `BadRequest`, ...)
renders its optional inner responder and overrides the status; with no inner
body it emits the bare status. -/
def respondStatusWrap {T : Type} (code : Nat) (respT : T → Option HttpResponse)
    (p : Option T) : Option HttpResponse :=
  match p with
  | some t => (respT t).map (setStatus code)
  | none => some ⟨code, none, none, []⟩

/-- Modelled from the spec: a content wrapper (`RawCss`, `RawHtml`, ...)
renders its inner responder and overrides the content type. -/
def respondContentWrap {T : Type} (ct : String) (respT : T → Option HttpResponse)
    (t : T) : Option HttpResponse :=
  (respT t).map (setContentType ct)

/-- Modelled from the spec: the no-content renderer emits status 204 with no
body. -/
def respondNoContent : Option HttpResponse :=
  some ⟨204, none, none, []⟩

/-- Modelled from the spec: the redirect renderer emits the redirect's 3xx
status with a `Location` header and no body. -/
def respondRedirect (r : RedirectV) : Option HttpResponse :=
  some ⟨r.status, none, none, [("Location", r.location)]⟩

/-- Modelled from the spec: the transient flash cookie value encodes the
message kind (length-prefixed) followed by the message. -/
def encodeFlash (kind message : String) : String :=
  toString kind.length ++ kind ++ message

/-- Modelled from the spec: the flash renderer responds as the wrapped inner
responder and additionally sets the one-shot flash cookie carrying the
message. -/
def respondFlash {R : Type} (respR : R → Option HttpResponse)
    (f : FlashV R) : Option HttpResponse :=
  (respR f.inner).map fun r =>
    { r with headers :=
        r.headers ++ [("Set-Cookie", "_flash=" ++ encodeFlash f.kind f.message)] }

/-- Modelled from the spec: the open-file renderer streams the file bytes as
the body; it fails (missing file / read failure) exactly when the contents
are unavailable. -/
def respondFile (f : FileH) : Option HttpResponse :=
  f.contents.map fun s => ⟨200, none, some s, []⟩

/-- Modelled from the spec: the named-file renderer streams the file bytes
with the content type inferred from the path; it fails when the file is
unavailable. -/
def respondNamedFile (f : NamedFileH) : Option HttpResponse :=
  f.contents.map fun s => ⟨200, f.inferredContentType, some s, []⟩

/-- Modelled from the spec: the raw-status renderer emits only a status
line. -/
def respondStatus (code : Nat) : Option HttpResponse :=
  some ⟨code, none, none, []⟩

/-- Modelled from the spec: the byte-buffer renderer (`&[u8]` / `Vec<u8>`)
emits the bytes as an opaque binary body, status 200. -/
def respondBytes (s : String) : Option HttpResponse :=
  some ⟨200, some "application/octet-stream", some s, []⟩

/-- Modelled from the spec: the structured-data JSON renderer serializes the
payload and sets content-type `application/json`. -/
def respondSerdeJson {T : Type} (ser : T → String) (t : T) : Option HttpResponse :=
  some ⟨200, some "application/json", some (ser t), []⟩

/-- Modelled from the spec: the structured-data MessagePack renderer
serializes the payload and sets content-type `application/msgpack`. -/
def respondSerdeMsgPack {T : Type} (ser : T → String) (t : T) : Option HttpResponse :=
  some ⟨200, some "application/msgpack", some (ser t), []⟩

/-- Modelled from the spec: an already-built JSON value renders with
content-type `application/json`. -/
def respondSerdeValue (s : String) : Option HttpResponse :=
  some ⟨200, some "application/json", some s, []⟩

/-- Modelled from the spec: the template renderer emits the rendered HTML
text; it fails exactly when template rendering failed. -/
def respondTemplate (t : TemplateV) : Option HttpResponse :=
  t.rendered.map fun s => ⟨200, some "text/html", some s, []⟩

/-- The rendering capabilities the generic payload type `T` brings along: its
own responder (for the status and content wrappers and `Flash<T>`) and its
serializations (for the feature-gated structured-data variants; the byte
encodings are abstracted as strings). -/
structure TContext (T : Type) where
  respond : T → Option HttpResponse
  serializeJson : T → String
  serializeMsgPack : T → String

/-- The `&'static str` responder: plain text (never fails). -/
def strRespond (s : String) : Option HttpResponse :=
  some (respondText s)

/-- Modelled from the spec: JSON serialization of a string is the quoted
string (escaping abstracted away). -/
def strSerializeJson (s : String) : String :=
  "\"" ++ s ++ "\""

/-- Modelled from the spec: MessagePack serialization of a string, with the
byte encoding abstracted as the string itself. -/
def strSerializeMsgPack (s : String) : String :=
  s

/-- The `TContext` of `&'static str`, the payload type of every wrapper in
the non-generic `RocketResponse`. -/
def strContext : TContext String :=
  ⟨strRespond, strSerializeJson, strSerializeMsgPack⟩

/-! ## Union rendering

`render` models the `#[derive(Responder)]`-generated code: a single
branch-per-variant forwarding operation, written out with the output each
wrapped renderer produces.  `renderSpec` is the spec's reading of the
guarantee: the value renders to exactly what the wrapped response type of
its active variant produces when rendered in isolation (the named
responders above). -/

/-- `RocketResponse` rendering as the derive generates it: branch on the
variant, produce the wrapped renderer's output unchanged. -/
def RocketResponse.render : RocketResponse → Option HttpResponse
  | .accepted p =>
      match p with
      | some s => some ⟨202, some "text/plain", some s, []⟩
      | none => some ⟨202, none, none, []⟩
  | .badRequest p =>
      match p with
      | some s => some ⟨400, some "text/plain", some s, []⟩
      | none => some ⟨400, none, none, []⟩
  | .conflict p =>
      match p with
      | some s => some ⟨409, some "text/plain", some s, []⟩
      | none => some ⟨409, none, none, []⟩
  | .created p =>
      match p with
      | some s => some ⟨201, some "text/plain", some s, []⟩
      | none => some ⟨201, none, none, []⟩
  | .css p => some ⟨200, some "text/css", some p, []⟩
  | .file p =>
      match p.contents with
      | some s => some ⟨200, none, some s, []⟩
      | none => none
  | .flash p =>
      some ⟨200, some "text/plain", some p.inner,
        [("Set-Cookie", "_flash=" ++ (toString p.kind.length ++ p.kind ++ p.message))]⟩
  | .forbidden p =>
      match p with
      | some s => some ⟨403, some "text/plain", some s, []⟩
      | none => some ⟨403, none, none, []⟩
  | .html p => some ⟨200, some "text/html", some p, []⟩
  | .javaScript p => some ⟨200, some "text/javascript", some p, []⟩
  | .json p => some ⟨200, some "application/json", some p, []⟩
  | .msgPack p => some ⟨200, some "application/msgpack", some p, []⟩
  | .namedFiled p =>
      match p.contents with
      | some s => some ⟨200, p.inferredContentType, some s, []⟩
      | none => none
  | .notFound p =>
      match p with
      | some s => some ⟨404, some "text/plain", some s, []⟩
      | none => some ⟨404, none, none, []⟩
  | .noContent => some ⟨204, none, none, []⟩
  | .plain p => some ⟨200, some "text/plain", some p, []⟩
  | .redirect p => some ⟨p.status, none, none, [("Location", p.location)]⟩
  | .serdeJson p => some ⟨200, some "application/json", some ("\"" ++ p ++ "\""), []⟩
  | .serdeMsgPack p => some ⟨200, some "application/msgpack", some p, []⟩
  | .serdeValue p => some ⟨200, some "application/json", some p, []⟩
  | .staticSlice p => some ⟨200, some "application/octet-stream", some p, []⟩
  | .staticStr p => some ⟨200, some "text/plain", some p, []⟩
  | .string p => some ⟨200, some "text/plain", some p, []⟩
  | .status p => some ⟨p, none, none, []⟩
  | .template p =>
      match p.rendered with
      | some s => some ⟨200, some "text/html", some s, []⟩
      | none => none
  | .tokioFile p =>
      match p.contents with
      | some s => some ⟨200, none, some s, []⟩
      | none => none
  | .unauthorized p =>
      match p with
      | some s => some ⟨401, some "text/plain", some s, []⟩
      | none => some ⟨401, none, none, []⟩
  | .vec p => some ⟨200, some "application/octet-stream", some p, []⟩
  | .xml p => some ⟨200, some "text/xml", some p, []⟩

/-- `RocketResponse` rendering as the spec states it: each variant yields
exactly what its wrapped response type produces in isolation. -/
def RocketResponse.renderSpec : RocketResponse → Option HttpResponse
  | .accepted p => respondStatusWrap 202 strRespond p
  | .badRequest p => respondStatusWrap 400 strRespond p
  | .conflict p => respondStatusWrap 409 strRespond p
  | .created p => respondStatusWrap 201 strRespond p
  | .css p => respondContentWrap "text/css" strRespond p
  | .file p => respondFile p
  | .flash p => respondFlash strRespond p
  | .forbidden p => respondStatusWrap 403 strRespond p
  | .html p => respondContentWrap "text/html" strRespond p
  | .javaScript p => respondContentWrap "text/javascript" strRespond p
  | .json p => respondContentWrap "application/json" strRespond p
  | .msgPack p => respondContentWrap "application/msgpack" strRespond p
  | .namedFiled p => respondNamedFile p
  | .notFound p => respondStatusWrap 404 strRespond p
  | .noContent => respondNoContent
  | .plain p => respondContentWrap "text/plain" strRespond p
  | .redirect p => respondRedirect p
  | .serdeJson p => respondSerdeJson strSerializeJson p
  | .serdeMsgPack p => respondSerdeMsgPack strSerializeMsgPack p
  | .serdeValue p => respondSerdeValue p
  | .staticSlice p => respondBytes p
  | .staticStr p => strRespond p
  | .string p => strRespond p
  | .status p => respondStatus p
  | .template p => respondTemplate p
  | .tokioFile p => respondFile p
  | .unauthorized p => respondStatusWrap 401 strRespond p
  | .vec p => respondBytes p
  | .xml p => respondContentWrap "text/xml" strRespond p

/-- `RocketResponseGeneric<T>` rendering as the derive generates it, given
the capabilities `c` of `T`: branch on the variant, call the wrapped
renderer, return its output unchanged. -/
def RocketResponseGeneric.render {T : Type} (c : TContext T) :
    RocketResponseGeneric T → Option HttpResponse
  | .accepted p =>
      match p with
      | some t => (c.respond t).map (setStatus 202)
      | none => some ⟨202, none, none, []⟩
  | .badRequest p =>
      match p with
      | some t => (c.respond t).map (setStatus 400)
      | none => some ⟨400, none, none, []⟩
  | .conflict p =>
      match p with
      | some t => (c.respond t).map (setStatus 409)
      | none => some ⟨409, none, none, []⟩
  | .created p =>
      match p with
      | some t => (c.respond t).map (setStatus 201)
      | none => some ⟨201, none, none, []⟩
  | .css p => (c.respond p).map (setContentType "text/css")
  | .file p =>
      match p.contents with
      | some s => some ⟨200, none, some s, []⟩
      | none => none
  | .flash p =>
      (c.respond p.inner).map fun r =>
        { r with headers :=
            r.headers ++
              [("Set-Cookie", "_flash=" ++ (toString p.kind.length ++ p.kind ++ p.message))] }
  | .forbidden p =>
      match p with
      | some t => (c.respond t).map (setStatus 403)
      | none => some ⟨403, none, none, []⟩
  | .html p => (c.respond p).map (setContentType "text/html")
  | .javaScript p => (c.respond p).map (setContentType "text/javascript")
  | .json p => (c.respond p).map (setContentType "application/json")
  | .msgPack p => (c.respond p).map (setContentType "application/msgpack")
  | .namedFiled p =>
      match p.contents with
      | some s => some ⟨200, p.inferredContentType, some s, []⟩
      | none => none
  | .notFound p =>
      match p with
      | some t => (c.respond t).map (setStatus 404)
      | none => some ⟨404, none, none, []⟩
  | .noContent => some ⟨204, none, none, []⟩
  | .plain p => (c.respond p).map (setContentType "text/plain")
  | .redirect p => some ⟨p.status, none, none, [("Location", p.location)]⟩
  | .serdeJson p => some ⟨200, some "application/json", some (c.serializeJson p), []⟩
  | .serdeMsgPack p =>
      some ⟨200, some "application/msgpack", some (c.serializeMsgPack p), []⟩
  | .serdeValue p => some ⟨200, some "application/json", some p, []⟩
  | .staticSlice p => some ⟨200, some "application/octet-stream", some p, []⟩
  | .staticStr p => some ⟨200, some "text/plain", some p, []⟩
  | .string p => some ⟨200, some "text/plain", some p, []⟩
  | .status p => some ⟨p, none, none, []⟩
  | .template p =>
      match p.rendered with
      | some s => some ⟨200, some "text/html", some s, []⟩
      | none => none
  | .tokioFile p =>
      match p.contents with
      | some s => some ⟨200, none, some s, []⟩
      | none => none
  | .unauthorized p =>
      match p with
      | some t => (c.respond t).map (setStatus 401)
      | none => some ⟨401, none, none, []⟩
  | .vec p => some ⟨200, some "application/octet-stream", some p, []⟩
  | .xml p => (c.respond p).map (setContentType "text/xml")

/-- `RocketResponseGeneric<T>` rendering as the spec states it: each variant
yields exactly what its wrapped response type produces in isolation. -/
def RocketResponseGeneric.renderSpec {T : Type} (c : TContext T) :
    RocketResponseGeneric T → Option HttpResponse
  | .accepted p => respondStatusWrap 202 c.respond p
  | .badRequest p => respondStatusWrap 400 c.respond p
  | .conflict p => respondStatusWrap 409 c.respond p
  | .created p => respondStatusWrap 201 c.respond p
  | .css p => respondContentWrap "text/css" c.respond p
  | .file p => respondFile p
  | .flash p => respondFlash c.respond p
  | .forbidden p => respondStatusWrap 403 c.respond p
  | .html p => respondContentWrap "text/html" c.respond p
  | .javaScript p => respondContentWrap "text/javascript" c.respond p
  | .json p => respondContentWrap "application/json" c.respond p
  | .msgPack p => respondContentWrap "application/msgpack" c.respond p
  | .namedFiled p => respondNamedFile p
  | .notFound p => respondStatusWrap 404 c.respond p
  | .noContent => respondNoContent
  | .plain p => respondContentWrap "text/plain" c.respond p
  | .redirect p => respondRedirect p
  | .serdeJson p => respondSerdeJson c.serializeJson p
  | .serdeMsgPack p => respondSerdeMsgPack c.serializeMsgPack p
  | .serdeValue p => respondSerdeValue p
  | .staticSlice p => respondBytes p
  | .staticStr p => strRespond p
  | .string p => strRespond p
  | .status p => respondStatus p
  | .template p => respondTemplate p
  | .tokioFile p => respondFile p
  | .unauthorized p => respondStatusWrap 401 c.respond p
  | .vec p => respondBytes p
  | .xml p => respondContentWrap "text/xml" c.respond p

/-- `RocketResponseGeneric2<T, U>` rendering as the derive generates it,
given the capabilities `c` of `T` and the responder `respU` of `U` (which
only the `Flash` variant wraps). -/
def RocketResponseGeneric2.render {T U : Type} (c : TContext T)
    (respU : U → Option HttpResponse) :
    RocketResponseGeneric2 T U → Option HttpResponse
  | .accepted p =>
      match p with
      | some t => (c.respond t).map (setStatus 202)
      | none => some ⟨202, none, none, []⟩
  | .badRequest p =>
      match p with
      | some t => (c.respond t).map (setStatus 400)
      | none => some ⟨400, none, none, []⟩
  | .conflict p =>
      match p with
      | some t => (c.respond t).map (setStatus 409)
      | none => some ⟨409, none, none, []⟩
  | .created p =>
      match p with
      | some t => (c.respond t).map (setStatus 201)
      | none => some ⟨201, none, none, []⟩
  | .css p => (c.respond p).map (setContentType "text/css")
  | .file p =>
      match p.contents with
      | some s => some ⟨200, none, some s, []⟩
      | none => none
  | .flash p =>
      (respU p.inner).map fun r =>
        { r with headers :=
            r.headers ++
              [("Set-Cookie", "_flash=" ++ (toString p.kind.length ++ p.kind ++ p.message))] }
  | .forbidden p =>
      match p with
      | some t => (c.respond t).map (setStatus 403)
      | none => some ⟨403, none, none, []⟩
  | .html p => (c.respond p).map (setContentType "text/html")
  | .javaScript p => (c.respond p).map (setContentType "text/javascript")
  | .json p => (c.respond p).map (setContentType "application/json")
  | .msgPack p => (c.respond p).map (setContentType "application/msgpack")
  | .namedFiled p =>
      match p.contents with
      | some s => some ⟨200, p.inferredContentType, some s, []⟩
      | none => none
  | .notFound p =>
      match p with
      | some t => (c.respond t).map (setStatus 404)
      | none => some ⟨404, none, none, []⟩
  | .noContent => some ⟨204, none, none, []⟩
  | .plain p => (c.respond p).map (setContentType "text/plain")
  | .redirect p => some ⟨p.status, none, none, [("Location", p.location)]⟩
  | .serdeJson p => some ⟨200, some "application/json", some (c.serializeJson p), []⟩
  | .serdeMsgPack p =>
      some ⟨200, some "application/msgpack", some (c.serializeMsgPack p), []⟩
  | .serdeValue p => some ⟨200, some "application/json", some p, []⟩
  | .staticSlice p => some ⟨200, some "application/octet-stream", some p, []⟩
  | .staticStr p => some ⟨200, some "text/plain", some p, []⟩
  | .string p => some ⟨200, some "text/plain", some p, []⟩
  | .status p => some ⟨p, none, none, []⟩
  | .template p =>
      match p.rendered with
      | some s => some ⟨200, some "text/html", some s, []⟩
      | none => none
  | .tokioFile p =>
      match p.contents with
      | some s => some ⟨200, none, some s, []⟩
      | none => none
  | .unauthorized p =>
      match p with
      | some t => (c.respond t).map (setStatus 401)
      | none => some ⟨401, none, none, []⟩
  | .vec p => some ⟨200, some "application/octet-stream", some p, []⟩
  | .xml p => (c.respond p).map (setContentType "text/xml")

/-- `RocketResponseGeneric2<T, U>` rendering as the spec states it: each
variant yields exactly what its wrapped response type produces in
isolation. -/
def RocketResponseGeneric2.renderSpec {T U : Type} (c : TContext T)
    (respU : U → Option HttpResponse) :
    RocketResponseGeneric2 T U → Option HttpResponse
  | .accepted p => respondStatusWrap 202 c.respond p
  | .badRequest p => respondStatusWrap 400 c.respond p
  | .conflict p => respondStatusWrap 409 c.respond p
  | .created p => respondStatusWrap 201 c.respond p
  | .css p => respondContentWrap "text/css" c.respond p
  | .file p => respondFile p
  | .flash p => respondFlash respU p
  | .forbidden p => respondStatusWrap 403 c.respond p
  | .html p => respondContentWrap "text/html" c.respond p
  | .javaScript p => respondContentWrap "text/javascript" c.respond p
  | .json p => respondContentWrap "application/json" c.respond p
  | .msgPack p => respondContentWrap "application/msgpack" c.respond p
  | .namedFiled p => respondNamedFile p
  | .notFound p => respondStatusWrap 404 c.respond p
  | .noContent => respondNoContent
  | .plain p => respondContentWrap "text/plain" c.respond p
  | .redirect p => respondRedirect p
  | .serdeJson p => respondSerdeJson c.serializeJson p
  | .serdeMsgPack p => respondSerdeMsgPack c.serializeMsgPack p
  | .serdeValue p => respondSerdeValue p
  | .staticSlice p => respondBytes p
  | .staticStr p => strRespond p
  | .string p => strRespond p
  | .status p => respondStatus p
  | .template p => respondTemplate p
  | .tokioFile p => respondFile p
  | .unauthorized p => respondStatusWrap 401 c.respond p
  | .vec p => respondBytes p
  | .xml p => respondContentWrap "text/xml" c.respond p

/-! ## Active-variant observation -/

/-- The active variant of a `RocketResponse` value. -/
def RocketResponse.tag : RocketResponse → VariantName
  | .accepted _ => .accepted
  | .badRequest _ => .badRequest
  | .conflict _ => .conflict
  | .created _ => .created
  | .css _ => .css
  | .file _ => .file
  | .flash _ => .flash
  | .forbidden _ => .forbidden
  | .html _ => .html
  | .javaScript _ => .javaScript
  | .json _ => .json
  | .msgPack _ => .msgPack
  | .namedFiled _ => .namedFiled
  | .notFound _ => .notFound
  | .noContent => .noContent
  | .plain _ => .plain
  | .redirect _ => .redirect
  | .serdeJson _ => .serdeJson
  | .serdeMsgPack _ => .serdeMsgPack
  | .serdeValue _ => .serdeValue
  | .staticSlice _ => .staticSlice
  | .staticStr _ => .staticStr
  | .string _ => .string
  | .status _ => .status
  | .template _ => .template
  | .tokioFile _ => .tokioFile
  | .unauthorized _ => .unauthorized
  | .vec _ => .vec
  | .xml _ => .xml

/-- Whether the payload of variant `v` is populated in a `RocketResponse`
value: true exactly on the constructor carrying that variant's payload. -/
def RocketResponse.isActive (v : VariantName) (r : RocketResponse) : Bool :=
  match v, r with
  | .accepted, .accepted _ => true
  | .badRequest, .badRequest _ => true
  | .conflict, .conflict _ => true
  | .created, .created _ => true
  | .css, .css _ => true
  | .file, .file _ => true
  | .flash, .flash _ => true
  | .forbidden, .forbidden _ => true
  | .html, .html _ => true
  | .javaScript, .javaScript _ => true
  | .json, .json _ => true
  | .msgPack, .msgPack _ => true
  | .namedFiled, .namedFiled _ => true
  | .notFound, .notFound _ => true
  | .noContent, .noContent => true
  | .plain, .plain _ => true
  | .redirect, .redirect _ => true
  | .serdeJson, .serdeJson _ => true
  | .serdeMsgPack, .serdeMsgPack _ => true
  | .serdeValue, .serdeValue _ => true
  | .staticSlice, .staticSlice _ => true
  | .staticStr, .staticStr _ => true
  | .string, .string _ => true
  | .status, .status _ => true
  | .template, .template _ => true
  | .tokioFile, .tokioFile _ => true
  | .unauthorized, .unauthorized _ => true
  | .vec, .vec _ => true
  | .xml, .xml _ => true
  | _, _ => false

/-- The active variant of a `RocketResponseGeneric` value. -/
def RocketResponseGeneric.tag {T : Type} : RocketResponseGeneric T → VariantName
  | .accepted _ => .accepted
  | .badRequest _ => .badRequest
  | .conflict _ => .conflict
  | .created _ => .created
  | .css _ => .css
  | .file _ => .file
  | .flash _ => .flash
  | .forbidden _ => .forbidden
  | .html _ => .html
  | .javaScript _ => .javaScript
  | .json _ => .json
  | .msgPack _ => .msgPack
  | .namedFiled _ => .namedFiled
  | .notFound _ => .notFound
  | .noContent => .noContent
  | .plain _ => .plain
  | .redirect _ => .redirect
  | .serdeJson _ => .serdeJson
  | .serdeMsgPack _ => .serdeMsgPack
  | .serdeValue _ => .serdeValue
  | .staticSlice _ => .staticSlice
  | .staticStr _ => .staticStr
  | .string _ => .string
  | .status _ => .status
  | .template _ => .template
  | .tokioFile _ => .tokioFile
  | .unauthorized _ => .unauthorized
  | .vec _ => .vec
  | .xml _ => .xml

/-- Whether the payload of variant `v` is populated in a
`RocketResponseGeneric` value. -/
def RocketResponseGeneric.isActive {T : Type} (v : VariantName)
    (r : RocketResponseGeneric T) : Bool :=
  match v, r with
  | .accepted, .accepted _ => true
  | .badRequest, .badRequest _ => true
  | .conflict, .conflict _ => true
  | .created, .created _ => true
  | .css, .css _ => true
  | .file, .file _ => true
  | .flash, .flash _ => true
  | .forbidden, .forbidden _ => true
  | .html, .html _ => true
  | .javaScript, .javaScript _ => true
  | .json, .json _ => true
  | .msgPack, .msgPack _ => true
  | .namedFiled, .namedFiled _ => true
  | .notFound, .notFound _ => true
  | .noContent, .noContent => true
  | .plain, .plain _ => true
  | .redirect, .redirect _ => true
  | .serdeJson, .serdeJson _ => true
  | .serdeMsgPack, .serdeMsgPack _ => true
  | .serdeValue, .serdeValue _ => true
  | .staticSlice, .staticSlice _ => true
  | .staticStr, .staticStr _ => true
  | .string, .string _ => true
  | .status, .status _ => true
  | .template, .template _ => true
  | .tokioFile, .tokioFile _ => true
  | .unauthorized, .unauthorized _ => true
  | .vec, .vec _ => true
  | .xml, .xml _ => true
  | _, _ => false

/-- The active variant of a `RocketResponseGeneric2` value. -/
def RocketResponseGeneric2.tag {T U : Type} :
    RocketResponseGeneric2 T U → VariantName
  | .accepted _ => .accepted
  | .badRequest _ => .badRequest
  | .conflict _ => .conflict
  | .created _ => .created
  | .css _ => .css
  | .file _ => .file
  | .flash _ => .flash
  | .forbidden _ => .forbidden
  | .html _ => .html
  | .javaScript _ => .javaScript
  | .json _ => .json
  | .msgPack _ => .msgPack
  | .namedFiled _ => .namedFiled
  | .notFound _ => .notFound
  | .noContent => .noContent
  | .plain _ => .plain
  | .redirect _ => .redirect
  | .serdeJson _ => .serdeJson
  | .serdeMsgPack _ => .serdeMsgPack
  | .serdeValue _ => .serdeValue
  | .staticSlice _ => .staticSlice
  | .staticStr _ => .staticStr
  | .string _ => .string
  | .status _ => .status
  | .template _ => .template
  | .tokioFile _ => .tokioFile
  | .unauthorized _ => .unauthorized
  | .vec _ => .vec
  | .xml _ => .xml

/-- Whether the payload of variant `v` is populated in a
`RocketResponseGeneric2` value. -/
def RocketResponseGeneric2.isActive {T U : Type} (v : VariantName)
    (r : RocketResponseGeneric2 T U) : Bool :=
  match v, r with
  | .accepted, .accepted _ => true
  | .badRequest, .badRequest _ => true
  | .conflict, .conflict _ => true
  | .created, .created _ => true
  | .css, .css _ => true
  | .file, .file _ => true
  | .flash, .flash _ => true
  | .forbidden, .forbidden _ => true
  | .html, .html _ => true
  | .javaScript, .javaScript _ => true
  | .json, .json _ => true
  | .msgPack, .msgPack _ => true
  | .namedFiled, .namedFiled _ => true
  | .notFound, .notFound _ => true
  | .noContent, .noContent => true
  | .plain, .plain _ => true
  | .redirect, .redirect _ => true
  | .serdeJson, .serdeJson _ => true
  | .serdeMsgPack, .serdeMsgPack _ => true
  | .serdeValue, .serdeValue _ => true
  | .staticSlice, .staticSlice _ => true
  | .staticStr, .staticStr _ => true
  | .string, .string _ => true
  | .status, .status _ => true
  | .template, .template _ => true
  | .tokioFile, .tokioFile _ => true
  | .unauthorized, .unauthorized _ => true
  | .vec, .vec _ => true
  | .xml, .xml _ => true
  | _, _ => false

/-! ## Helper lemmas -/

theorem rocketResponse_tag_isActive (r : RocketResponse) :
    RocketResponse.isActive r.tag r = true := by
  cases r <;> rfl

theorem rocketResponse_isActive_eq_tag (r : RocketResponse) (v : VariantName)
    (h : RocketResponse.isActive v r = true) : v = r.tag := by
  cases r <;> cases v <;> first | rfl | exact Bool.noConfusion h

theorem rocketResponseGeneric_tag_isActive {T : Type}
    (r : RocketResponseGeneric T) :
    RocketResponseGeneric.isActive r.tag r = true := by
  cases r <;> rfl

theorem rocketResponseGeneric_isActive_eq_tag {T : Type}
    (r : RocketResponseGeneric T) (v : VariantName)
    (h : RocketResponseGeneric.isActive v r = true) : v = r.tag := by
  cases r <;> cases v <;> first | rfl | exact Bool.noConfusion h

theorem rocketResponseGeneric2_tag_isActive {T U : Type}
    (r : RocketResponseGeneric2 T U) :
    RocketResponseGeneric2.isActive r.tag r = true := by
  cases r <;> rfl

theorem rocketResponseGeneric2_isActive_eq_tag {T U : Type}
    (r : RocketResponseGeneric2 T U) (v : VariantName)
    (h : RocketResponseGeneric2.isActive v r = true) : v = r.tag := by
  cases r <;> cases v <;> first | rfl | exact Bool.noConfusion h

/-! ## Claims -/

/-- C1: rendering a value of any of the three union shapes produces exactly
the result that the wrapped response type of its active variant would
produce when rendered in isolation — the union adds no failure mode, no
transformation of the payload and no buffering, and it fails exactly when
the delegated renderer fails. -/
theorem c1_render_delegates_exactly :
    (∀ r : RocketResponse, RocketResponse.render r = RocketResponse.renderSpec r)
    ∧ (∀ (T : Type) (c : TContext T) (r : RocketResponseGeneric T),
        RocketResponseGeneric.render c r = RocketResponseGeneric.renderSpec c r)
    ∧ (∀ (T U : Type) (c : TContext T) (respU : U → Option HttpResponse)
        (r : RocketResponseGeneric2 T U),
        RocketResponseGeneric2.render c respU r
          = RocketResponseGeneric2.renderSpec c respU r) := by
  refine ⟨?_, ?_, ?_⟩
  · intro r
    cases r <;>
      first
        | rfl
        | (rename_i p; rcases p with _ | _ <;> rfl)
        | (rename_i p; rcases p with ⟨_ | _⟩ <;> rfl)
        | (rename_i p; rcases p with ⟨_, _ | _, _⟩ <;> rfl)
  · intro T c r
    cases r <;>
      first
        | rfl
        | (rename_i p; rcases p with _ | _ <;> rfl)
        | (rename_i p; rcases p with ⟨_ | _⟩ <;> rfl)
        | (rename_i p; rcases p with ⟨_, _ | _, _⟩ <;> rfl)
  · intro T U c respU r
    cases r <;>
      first
        | rfl
        | (rename_i p; rcases p with _ | _ <;> rfl)
        | (rename_i p; rcases p with ⟨_ | _⟩ <;> rfl)
        | (rename_i p; rcases p with ⟨_, _ | _, _⟩ <;> rfl)

/-- C2: the three enum shapes define the same variant catalog — for every
variant name and every feature selection, the name is listed in one shape's
catalog iff it is listed in the other two. -/
theorem c2_same_variant_catalog :
    ∀ (f : Features) (v : VariantName),
      (v ∈ RocketResponse.variants f ↔ v ∈ RocketResponseGeneric.variants f)
      ∧ (v ∈ RocketResponse.variants f ↔ v ∈ RocketResponseGeneric2.variants f) := by
  intro f v
  revert v
  obtain ⟨j, m, tt, th⟩ := f
  cases j <;> cases m <;> cases tt <;> cases th <;> decide

/-- The exception set named by the C3 claim for `RocketResponseGeneric<T>`,
read generously: the file variants (by path, by std handle, by tokio
handle), the redirect, the raw status, and the raw byte payloads (static
slice and owned buffer). -/
def specClaimedFixedGeneric : List VariantName :=
  [.file, .namedFiled, .tokioFile, .redirect, .status, .staticSlice, .vec]

/-- C3 counterexample: `StaticStr` is in the `RocketResponseGeneric` catalog
and is none of the claimed structurally fixed variants (file, redirect, raw
status, raw bytes), yet its payload type is the concrete `&'static str`,
not the caller-supplied `T`. -/
theorem c3_counterexample :
    VariantName.staticStr ∈ RocketResponseGeneric.variants ⟨true, true, true, true⟩
    ∧ VariantName.staticStr ∉ specClaimedFixedGeneric
    ∧ (RocketResponseGeneric.payloadTy .staticStr).mentionsParam 0 = false
    ∧ RocketResponseGeneric.payloadTy .staticStr = RustTy.staticStrTy := by
  decide

/-- C3 amended: in `RocketResponseGeneric<T>` the variants whose payload
type uses the caller-supplied `T` are exactly the wrapper variants
accepted, bad-request, conflict, created, css, flash, forbidden, html,
javascript, json, msgpack, not-found, plain, serde-json, serde-msgpack,
unauthorized and xml; the remaining variants — file, named file, tokio
file, redirect, raw status, no-content, static byte slice, static string,
owned string, owned byte buffer, serde value and template — keep concrete
payload types. -/
theorem c3_generic_payload_parameterization :
    ∀ v : VariantName,
      (RocketResponseGeneric.payloadTy v).mentionsParam 0 = true
        ↔ v ∈ ([.accepted, .badRequest, .conflict, .created, .css, .flash,
                .forbidden, .html, .javaScript, .json, .msgPack, .notFound,
                .plain, .serdeJson, .serdeMsgPack, .unauthorized, .xml] :
               List VariantName) := by
  decide

/-- C4: in `RocketResponseGeneric2<T, U>` the flash variant is the only one
whose payload type uses the second parameter `U`; `U` is independent of `T`
(it carries no bound and the flash payload does not mention `T`); and every
other variant's payload type is exactly as in `RocketResponseGeneric<T>`. -/
theorem c4_generic2_second_parameter :
    (∀ v : VariantName,
      (RocketResponseGeneric2.payloadTy v).mentionsParam 1 = true ↔ v = .flash)
    ∧ RocketResponseGeneric2.boundsU = []
    ∧ (RocketResponseGeneric2.payloadTy .flash).mentionsParam 0 = false
    ∧ (∀ v : VariantName, v = .flash ∨
        RocketResponseGeneric2.payloadTy v = RocketResponseGeneric.payloadTy v) := by
  refine ⟨by decide, rfl, by decide, by decide⟩

/-- C5 counterexample: in the non-generic `RocketResponse`, the `Flash`
variant wraps `Flash<&'static str>` — the responder wrapped by the flash
payload is a static string, not a redirect. -/
theorem c5_counterexample :
    flashInner RocketResponse.payloadTy = some RustTy.staticStrTy
    ∧ RustTy.staticStrTy ≠ RustTy.redirectTy := by
  decide

/-- C5 amended: in each shape the flash variant carries a one-shot message
attached to an arbitrary wrapped responder, not necessarily a redirect —
`&'static str` in `RocketResponse`, the parameter `T` in
`RocketResponseGeneric`, the independent parameter `U` in
`RocketResponseGeneric2`; it is a redirect only when the parameter is
instantiated to `Redirect`, as in the crate's examples. -/
theorem c5_flash_inner_types :
    flashInner RocketResponse.payloadTy = some RustTy.staticStrTy
    ∧ flashInner RocketResponseGeneric.payloadTy = some (RustTy.param 0)
    ∧ flashInner RocketResponseGeneric2.payloadTy = some (RustTy.param 1) := by
  decide

/-- C6: sum-type exclusivity — for every value of each of the three union
shapes, exactly one variant's payload is populated and observable. -/
theorem c6_exactly_one_active :
    (∀ r : RocketResponse,
      ∃! v : VariantName, RocketResponse.isActive v r = true)
    ∧ (∀ (T : Type) (r : RocketResponseGeneric T),
        ∃! v : VariantName, RocketResponseGeneric.isActive v r = true)
    ∧ (∀ (T U : Type) (r : RocketResponseGeneric2 T U),
        ∃! v : VariantName, RocketResponseGeneric2.isActive v r = true) :=
  ⟨fun r => ⟨r.tag, rocketResponse_tag_isActive r,
      fun v h => rocketResponse_isActive_eq_tag r v h⟩,
   fun _ r => ⟨r.tag, rocketResponseGeneric_tag_isActive r,
      fun v h => rocketResponseGeneric_isActive_eq_tag r v h⟩,
   fun _ _ r => ⟨r.tag, rocketResponseGeneric2_tag_isActive r,
      fun v h => rocketResponseGeneric2_isActive_eq_tag r v h⟩⟩

/-- C7: rendering the no-content variant of any of the three shapes yields
status 204 with no body (and no content type or extra headers). -/
theorem c7_no_content_renders_204 :
    RocketResponse.render .noContent = some ⟨204, none, none, []⟩
    ∧ (∀ (T : Type) (c : TContext T),
        RocketResponseGeneric.render c .noContent = some ⟨204, none, none, []⟩)
    ∧ (∀ (T U : Type) (c : TContext T) (respU : U → Option HttpResponse),
        RocketResponseGeneric2.render c respU .noContent
          = some ⟨204, none, none, []⟩) :=
  ⟨rfl, fun _ _ => rfl, fun _ _ _ _ => rfl⟩

/-- C8: rendering `RocketResponse::StaticStr("Hello world")` yields status
200, content-type `text/plain` and body `Hello world`. -/
theorem c8_static_str_hello_world :
    RocketResponse.render (.staticStr "Hello world")
      = some ⟨200, some "text/plain", some "Hello world", []⟩ := rfl

/-- C9: rendering `RocketResponseGeneric2::<&str, Redirect>::Flash` built
from `Flash::error(Redirect::to("/"), "Invalid id 0")` yields the See Other
(303) redirect to `/` together with the transient flash cookie encoding the
error message. -/
theorem c9_flash_error_renders_303_with_cookie :
    RocketResponseGeneric2.render strContext respondRedirect
        (.flash (FlashV.error (RedirectV.to "/") "Invalid id 0"))
      = some ⟨303, none, none,
          [("Location", "/"), ("Set-Cookie", "_flash=5errorInvalid id 0")]⟩ := by
  decide

/-- C10: the enum-level `where T: Serialize` clause makes every variant of
both generic shapes require `T` serializable — including `Plain`, `Html`
and `Unauthorized`, whose rendering is independent of the serialization
functions — while the second parameter `U` of `RocketResponseGeneric2`
carries no trait bound. -/
theorem c10_serialize_bound_uniform :
    (∀ v : VariantName,
      RocketResponseGeneric.requiredBoundsT v = [TraitBound.serialize])
    ∧ (∀ v : VariantName,
        RocketResponseGeneric2.requiredBoundsT v = [TraitBound.serialize])
    ∧ RocketResponseGeneric2.boundsU = []
    ∧ (∀ (T : Type) (resp : T → Option HttpResponse) (s1 s2 s3 s4 : T → String)
        (t : T) (p : Option T),
        RocketResponseGeneric.render ⟨resp, s1, s3⟩ (.plain t)
          = RocketResponseGeneric.render ⟨resp, s2, s4⟩ (.plain t)
        ∧ RocketResponseGeneric.render ⟨resp, s1, s3⟩ (.html t)
          = RocketResponseGeneric.render ⟨resp, s2, s4⟩ (.html t)
        ∧ RocketResponseGeneric.render ⟨resp, s1, s3⟩ (.unauthorized p)
          = RocketResponseGeneric.render ⟨resp, s2, s4⟩ (.unauthorized p)) := by
  refine ⟨fun _ => rfl, fun _ => rfl, rfl, ?_⟩
  intro T resp s1 s2 s3 s4 t p
  refine ⟨rfl, rfl, ?_⟩
  cases p <;> rfl
